import Mathlib

/-!
# go-temfy: user service and HTTP handlers

A shallow embedding of `internal/services/user_service.go`,
`internal/handlers/user_handler.go` and `pkg/utils/response.go`.

* Go `error` values are modelled by `GoError`; a nil error is `none`.
* A Go pointer result `*entities.User` is an `Option User` (nil is `none`).
* The repository is an interface in the source, so it is a record of
  state-passing functions over an arbitrary store type `σ`.  A method taking
  `*entities.User` may write through the pointer, so `Create` and `Update`
  hand back the entity as they leave it.
* `traced` wraps any repository so that every call is appended to a log;
  statements about which repository methods are invoked are statements about
  that log.
-/

namespace GoTemfy

/-! ## Errors -/

/-- Go error values, as far as this program can tell them apart:
the sentinel `gorm.ErrRecordNotFound`, an error made by `errors.New`, and an
error wrapping another one (as `fmt.Errorf` with `%w` builds). -/
inductive GoError where
  | ErrRecordNotFound : GoError
  | New (msg : String) : GoError
  | Wrap (msg : String) (inner : GoError) : GoError
  deriving DecidableEq, Repr

/-- The method `Error()` of an error value. -/
def GoError.Error : GoError → String
  | .ErrRecordNotFound => "record not found"
  | .New msg => msg
  | .Wrap msg _ => msg

/-- The chain walk of `errors.Is(err, gorm.ErrRecordNotFound)` on a non-nil error. -/
def GoError.IsRecordNotFound : GoError → Bool
  | .ErrRecordNotFound => true
  | .New _ => false
  | .Wrap _ inner => inner.IsRecordNotFound

/-- The call `errors.Is(err, gorm.ErrRecordNotFound)`; a nil error is never the sentinel. -/
def errorsIsRecordNotFound : Option GoError → Bool
  | none => false
  | some e => e.IsRecordNotFound

/-! ## Entity -/

/-- Modelled from the spec: the file `internal/domain/entities/user.go` is not
among the sources.  The spec gives the record as identifier, name, email,
password, creation and last-update timestamps and an optional soft-delete
timestamp; the handlers use the fields `ID`, `Name`, `Email`, `Password`. -/
structure User where
  ID : Nat := 0
  Name : String := ""
  Email : String := ""
  Password : String := ""
  CreatedAt : Nat := 0
  UpdatedAt : Nat := 0
  DeletedAt : Option Nat := none
  deriving DecidableEq, Repr

/-! ## Repository interface (`internal/domain/interfaces/user_repository.go`) -/

/-- The interface `UserRepository`, over a store of type `σ`. -/
structure UserRepository (σ : Type) where
  Create : User → σ → (User × Option GoError) × σ
  GetByID : Nat → σ → (Option User × Option GoError) × σ
  GetByEmail : String → σ → (Option User × Option GoError) × σ
  Update : User → σ → (User × Option GoError) × σ
  Delete : Nat → σ → Option GoError × σ
  GetAll : Int → Int → σ → (List User × Option GoError) × σ

/-- One repository method invocation with its arguments. -/
inductive Call where
  | Create (user : User) : Call
  | GetByID (id : Nat) : Call
  | GetByEmail (email : String) : Call
  | Update (user : User) : Call
  | Delete (id : Nat) : Call
  | GetAll (limit offset : Int) : Call
  deriving DecidableEq, Repr

/-- The repository `r` with a call log: every method behaves as in `r` on the
store and appends its own invocation to the log. -/
def traced {σ : Type} (r : UserRepository σ) : UserRepository (σ × List Call) where
  Create user st := ((r.Create user st.1).1, ((r.Create user st.1).2, st.2 ++ [Call.Create user]))
  GetByID id st := ((r.GetByID id st.1).1, ((r.GetByID id st.1).2, st.2 ++ [Call.GetByID id]))
  GetByEmail email st :=
    ((r.GetByEmail email st.1).1, ((r.GetByEmail email st.1).2, st.2 ++ [Call.GetByEmail email]))
  Update user st := ((r.Update user st.1).1, ((r.Update user st.1).2, st.2 ++ [Call.Update user]))
  Delete id st := ((r.Delete id st.1).1, ((r.Delete id st.1).2, st.2 ++ [Call.Delete id]))
  GetAll limit offset st :=
    ((r.GetAll limit offset st.1).1,
      ((r.GetAll limit offset st.1).2, st.2 ++ [Call.GetAll limit offset]))

/-! ## Service (`internal/services/user_service.go`) -/

/-- The struct `UserService`. -/
structure UserService (σ : Type) where
  userRepo : UserRepository σ

/-- `NewUserService`. -/
def NewUserService {σ : Type} (userRepo : UserRepository σ) : UserService σ :=
  { userRepo := userRepo }

/-- The error `errors.New("user with this email already exists")` of `CreateUser`. -/
def ErrEmailExists : GoError := GoError.New "user with this email already exists"

/-- The error `errors.New("user not found")` of `UpdateUser` and `DeleteUser`. -/
def ErrUserNotFound : GoError := GoError.New "user not found"

/-- `UserService.CreateUser`.  The result carries the entity behind the pointer
argument as the call leaves it, and the returned error. -/
def UserService.CreateUser {σ : Type} (svc : UserService σ) (user : User) (s : σ) :
    (User × Option GoError) × σ :=
  match svc.userRepo.GetByEmail user.Email s with
  | ((existingUser, err), s1) =>
    if err ≠ none ∧ errorsIsRecordNotFound err = false then ((user, err), s1)
    else if existingUser ≠ none then ((user, some ErrEmailExists), s1)
    else svc.userRepo.Create user s1

/-- `UserService.GetUserByID`. -/
def UserService.GetUserByID {σ : Type} (svc : UserService σ) (id : Nat) (s : σ) :
    (Option User × Option GoError) × σ :=
  svc.userRepo.GetByID id s

/-- `UserService.GetUserByEmail`. -/
def UserService.GetUserByEmail {σ : Type} (svc : UserService σ) (email : String) (s : σ) :
    (Option User × Option GoError) × σ :=
  svc.userRepo.GetByEmail email s

/-- `UserService.UpdateUser`. -/
def UserService.UpdateUser {σ : Type} (svc : UserService σ) (user : User) (s : σ) :
    (User × Option GoError) × σ :=
  match svc.userRepo.GetByID user.ID s with
  | ((existingUser, err), s1) =>
    if err ≠ none then ((user, err), s1)
    else if existingUser = none then ((user, some ErrUserNotFound), s1)
    else svc.userRepo.Update user s1

/-- `UserService.DeleteUser`. -/
def UserService.DeleteUser {σ : Type} (svc : UserService σ) (id : Nat) (s : σ) :
    Option GoError × σ :=
  match svc.userRepo.GetByID id s with
  | ((existingUser, err), s1) =>
    if err ≠ none then (err, s1)
    else if existingUser = none then (some ErrUserNotFound, s1)
    else svc.userRepo.Delete id s1

/-- `UserService.GetAllUsers`.  Go `int` values are unbounded integers here;
the function does no arithmetic on them. -/
def UserService.GetAllUsers {σ : Type} (svc : UserService σ) (limit offset : Int) (s : σ) :
    (List User × Option GoError) × σ :=
  let limit := if limit ≤ 0 then 10 else limit
  let offset := if offset < 0 then 0 else offset
  svc.userRepo.GetAll limit offset s

/-! ## Response envelope (`pkg/utils/response.go`) -/

/-- The struct `BaseResponse`. -/
structure BaseResponse where
  Success : Bool
  Message : String
  Code : String
  deriving DecidableEq, Repr

/-- The struct `BaseErrorResponse`: the embedded `BaseResponse` and the
`errors` value, which every caller in the handlers passes as nil. -/
structure BaseErrorResponse where
  Base : BaseResponse
  Errors : Option String
  deriving DecidableEq, Repr

/-- What a handler serialises as the JSON body. -/
inductive Payload where
  | Error (body : BaseErrorResponse) : Payload
  | Entity (user : Option User) : Payload
  | Entities (users : List User) : Payload
  | Map (success : Bool) (message : String) : Payload
  deriving DecidableEq, Repr

/-- An HTTP response: `c.Status(statusCode).JSON(data)`. -/
structure Response where
  Status : Nat
  Body : Payload
  deriving DecidableEq, Repr

def StatusOK : Nat := 200
def StatusCreated : Nat := 201
def StatusBadRequest : Nat := 400
def StatusNotFound : Nat := 404
def StatusConflict : Nat := 409
def StatusInternalServerError : Nat := 500

/-- The map `codeList`. -/
def codeList : List (String × String) := [("0001", "General error")]

/-- `errorMessage`. -/
def errorMessage (code : String) : String :=
  match codeList.lookup code with
  | some message => message
  | none => "Something went wrong"

/-- `SuccessResponse`. -/
def SuccessResponse (statusCode : Nat) (data : Payload) : Response :=
  { Status := statusCode, Body := data }

/-- `ErrorResponse`. -/
def ErrorResponse (statusCode : Nat) (message : String) (code : String)
    (errors : Option String) : Response :=
  let code := if code = "" then "0001" else code
  let message := if message = "" then errorMessage code else message
  { Status := statusCode,
    Body := Payload.Error
      { Base := { Success := false, Message := message, Code := code }, Errors := errors } }

/-- `Error`. -/
def Error (message : String) (code : String) : BaseResponse :=
  let code := if code = "" then "0001" else code
  let message := if message = "" then errorMessage code else message
  { Success := false, Message := message, Code := code }

/-! ## Library functions the handlers call

`strconv.ParseUint`, `strconv.Atoi` and the struct validator are not code of
this repository; they are modelled after the Go standard library and the
documented meaning of the validation tags. -/

/-- The two errors of package `strconv`. -/
inductive NumError where
  | ErrSyntax : NumError
  | ErrRange : NumError
  deriving DecidableEq, Repr

/-- The digit value `strconv.ParseUint` gives a byte: decimal digits, then
letters of either case counting from ten; any other byte has none.  A
character outside ASCII is a run of bytes above 127, none of which is a digit. -/
def digitVal (c : Char) : Option Nat :=
  if '0' ≤ c ∧ c ≤ '9' then some (c.toNat - '0'.toNat)
  else if 'a' ≤ c ∧ c ≤ 'z' then some (c.toNat - 'a'.toNat + 10)
  else if 'A' ≤ c ∧ c ≤ 'Z' then some (c.toNat - 'A'.toNat + 10)
  else none

/-- The digit loop of `strconv.ParseUint`.  On a syntax error the value is 0,
on a range error it is `maxVal`.  The test `n1 < n || n1 > maxVal` of the
source (the first half catches a 64-bit wrap of `n + d`) is `n1 > maxVal` on
unbounded naturals, since `maxVal` is below `2 ^ 64`. -/
def parseUintLoop (base cutoff maxVal : Nat) : List Char → Nat → Nat × Option NumError
  | [], n => (n, none)
  | c :: cs, n =>
    match digitVal c with
    | none => (0, some NumError.ErrSyntax)
    | some d =>
      if d ≥ base then (0, some NumError.ErrSyntax)
      else if n ≥ cutoff then (maxVal, some NumError.ErrRange)
      else if n * base + d > maxVal then (maxVal, some NumError.ErrRange)
      else parseUintLoop base cutoff maxVal cs (n * base + d)

/-- `strconv.ParseUint(s, base, bitSize)` for an explicit base between 2 and 36
(the callers use 10), on the characters of `s`. -/
def ParseUintChars (cs : List Char) (base bitSize : Nat) : Nat × Option NumError :=
  if cs = [] then (0, some NumError.ErrSyntax)
  else
    let bitSize := if bitSize = 0 then 64 else bitSize
    let cutoff := (2 ^ 64 - 1) / base + 1
    let maxVal := 2 ^ bitSize - 1
    parseUintLoop base cutoff maxVal cs 0

/-- `strconv.ParseUint`. -/
def ParseUint (s : String) (base bitSize : Nat) : Nat × Option NumError :=
  ParseUintChars s.toList base bitSize

/-- `strconv.ParseInt(s, base, bitSize)` for an explicit base, on the characters of `s`. -/
def ParseIntChars (cs : List Char) (base bitSize : Nat) : Int × Option NumError :=
  match cs with
  | [] => (0, some NumError.ErrSyntax)
  | c :: rest =>
    let neg := decide (c = '-')
    let digits := if c = '+' ∨ c = '-' then rest else cs
    match ParseUintChars digits base bitSize with
    | (un, err) =>
      if err ≠ none ∧ err ≠ some NumError.ErrRange then (0, err)
      else
        let bitSize := if bitSize = 0 then 64 else bitSize
        let cutoff : Nat := 2 ^ (bitSize - 1)
        if neg = false ∧ un ≥ cutoff then (((cutoff - 1 : Nat) : Int), some NumError.ErrRange)
        else if neg = true ∧ un > cutoff then (-(cutoff : Int), some NumError.ErrRange)
        else (if neg then -(un : Int) else (un : Int), none)

/-- `strconv.Atoi(s)`: the same as `ParseInt(s, 10, 0)`; the fast path of the
source for short strings computes the same value. -/
def Atoi (s : String) : Int × Option NumError :=
  ParseIntChars s.toList 10 0

/-- One failed field of a validation: the field and the tag it failed on. -/
structure FieldError where
  Namespace : String
  Field : String
  Tag : String
  deriving DecidableEq, Repr

/-- The text of one field error. -/
def FieldError.Error (fe : FieldError) : String :=
  "Key: '" ++ fe.Namespace ++ "' Error:Field validation for '" ++ fe.Field ++
    "' failed on the '" ++ fe.Tag ++ "' tag"

/-- The text of a non-empty list of field errors, one per line. -/
def ValidationErrors.Error (ve : List FieldError) : String :=
  "\n".intercalate (ve.map FieldError.Error)

/-- The validator of the handler.  Its `email` rule is a library pattern that
is left as a parameter. -/
structure Validate where
  isEmail : String → Bool

/-- The tag list `required,min=lo,max=hi` on a string field: the first tag that
fails, if any.  `min` and `max` count characters. -/
def checkRequiredMinMax (value : String) (lo hi : Nat) : Option String :=
  if value = "" then some "required"
  else if value.length < lo then some "min"
  else if value.length > hi then some "max"
  else none

/-- The tag list `required,email`. -/
def Validate.checkRequiredEmail (v : Validate) (value : String) : Option String :=
  if value = "" then some "required"
  else if v.isEmail value = false then some "email"
  else none

/-- The tag list `required,min=lo`. -/
def checkRequiredMin (value : String) (lo : Nat) : Option String :=
  if value = "" then some "required"
  else if value.length < lo then some "min"
  else none

/-- The tag list `omitempty,min=lo`: an empty value is not checked further. -/
def checkOmitemptyMin (value : String) (lo : Nat) : Option String :=
  if value = "" then none
  else if value.length < lo then some "min"
  else none

/-- The field error for a failed tag, none when the field passed. -/
def fieldErrors (structName field : String) (failed : Option String) : List FieldError :=
  match failed with
  | none => []
  | some tag => [{ Namespace := structName ++ "." ++ field, Field := field, Tag := tag }]

/-! ## Handlers (`internal/handlers/user_handler.go`) -/

/-- The struct `CreateUserRequest`. -/
structure CreateUserRequest where
  Name : String
  Email : String
  Password : String
  deriving DecidableEq, Repr

/-- The struct `UpdateUserRequest`. -/
structure UpdateUserRequest where
  Name : String
  Email : String
  Password : String
  deriving DecidableEq, Repr

/-- The call `validator.Struct(req)` on a `CreateUserRequest`, by its tags:
the fields that failed, in declaration order; the empty list is a nil error. -/
def Validate.StructCreate (v : Validate) (req : CreateUserRequest) : List FieldError :=
  fieldErrors "CreateUserRequest" "Name" (checkRequiredMinMax req.Name 2 100) ++
  fieldErrors "CreateUserRequest" "Email" (v.checkRequiredEmail req.Email) ++
  fieldErrors "CreateUserRequest" "Password" (checkRequiredMin req.Password 6)

/-- The call `validator.Struct(req)` on an `UpdateUserRequest`, by its tags. -/
def Validate.StructUpdate (v : Validate) (req : UpdateUserRequest) : List FieldError :=
  fieldErrors "UpdateUserRequest" "Name" (checkRequiredMinMax req.Name 2 100) ++
  fieldErrors "UpdateUserRequest" "Email" (v.checkRequiredEmail req.Email) ++
  fieldErrors "UpdateUserRequest" "Password" (checkOmitemptyMin req.Password 6)

/-- The values a decoded JSON body gives the keys `name`, `email` and
`password`; a key that is absent leaves the zero value, the empty string. -/
structure BodyFields where
  name : String := ""
  email : String := ""
  password : String := ""
  deriving DecidableEq, Repr

/-- What a handler reads of the request context `*fiber.Ctx`: the route
parameters, the raw query arguments, and the outcome of `c.BodyParser`
(`none` when the body cannot be decoded). -/
structure Ctx where
  Params : String → String
  QueryArgs : String → String
  Body : Option BodyFields

/-- The call `c.Query(key, defaultValue)`: the default stands in for an empty value. -/
def Ctx.Query (c : Ctx) (key defaultValue : String) : String :=
  if c.QueryArgs key = "" then defaultValue else c.QueryArgs key

/-- The struct `UserHandler`. -/
structure UserHandler (σ : Type) where
  userService : UserService σ
  validator : Validate

/-- `NewUserHandler`; the validator it creates is the parameter `v`. -/
def NewUserHandler {σ : Type} (userService : UserService σ) (v : Validate) : UserHandler σ :=
  { userService := userService, validator := v }

/-- `UserHandler.CreateUser`. -/
def UserHandler.CreateUser {σ : Type} (h : UserHandler σ) (c : Ctx) (s : σ) : Response × σ :=
  match c.Body with
  | none => (ErrorResponse StatusBadRequest "Invalid request body" "0001" none, s)
  | some body =>
    let req : CreateUserRequest :=
      { Name := body.name, Email := body.email, Password := body.password }
    if h.validator.StructCreate req ≠ [] then
      (ErrorResponse StatusBadRequest
        ("Validation failed: " ++ ValidationErrors.Error (h.validator.StructCreate req))
        "0001" none, s)
    else
      let user : User := { Name := req.Name, Email := req.Email, Password := req.Password }
      match h.userService.CreateUser user s with
      | ((_, some err), s1) => (ErrorResponse StatusConflict err.Error "0002" none, s1)
      | ((user, none), s1) => (SuccessResponse StatusCreated (Payload.Entity (some user)), s1)

/-- `UserHandler.GetUser`. -/
def UserHandler.GetUser {σ : Type} (h : UserHandler σ) (c : Ctx) (s : σ) : Response × σ :=
  let idParam := c.Params "id"
  match ParseUint idParam 10 32 with
  | (_, some _) => (ErrorResponse StatusBadRequest "Invalid user ID" "0001" none, s)
  | (id, none) =>
    match h.userService.GetUserByID id s with
    | ((_, some err), s1) =>
      if errorsIsRecordNotFound (some err) then
        (ErrorResponse StatusNotFound "User not found" "0002" none, s1)
      else (ErrorResponse StatusInternalServerError "Failed to get user" "0003" none, s1)
    | ((user, none), s1) => (SuccessResponse StatusOK (Payload.Entity user), s1)

/-- `UserHandler.UpdateUser`. -/
def UserHandler.UpdateUser {σ : Type} (h : UserHandler σ) (c : Ctx) (s : σ) : Response × σ :=
  let idParam := c.Params "id"
  match ParseUint idParam 10 32 with
  | (_, some _) => (ErrorResponse StatusBadRequest "Invalid user ID" "0001" none, s)
  | (id, none) =>
    match c.Body with
    | none => (ErrorResponse StatusBadRequest "Invalid request body" "0001" none, s)
    | some body =>
      let req : UpdateUserRequest :=
        { Name := body.name, Email := body.email, Password := body.password }
      if h.validator.StructUpdate req ≠ [] then
        (ErrorResponse StatusBadRequest
          ("Validation failed: " ++ ValidationErrors.Error (h.validator.StructUpdate req))
          "0001" none, s)
      else
        let user : User := { ID := id, Name := req.Name, Email := req.Email }
        let user : User := if req.Password ≠ "" then { user with Password := req.Password } else user
        match h.userService.UpdateUser user s with
        | ((_, some err), s1) =>
          if errorsIsRecordNotFound (some err) then
            (ErrorResponse StatusNotFound "User not found" "0002" none, s1)
          else (ErrorResponse StatusInternalServerError err.Error "0003" none, s1)
        | ((user, none), s1) => (SuccessResponse StatusOK (Payload.Entity (some user)), s1)

/-- `UserHandler.DeleteUser`. -/
def UserHandler.DeleteUser {σ : Type} (h : UserHandler σ) (c : Ctx) (s : σ) : Response × σ :=
  let idParam := c.Params "id"
  match ParseUint idParam 10 32 with
  | (_, some _) => (ErrorResponse StatusBadRequest "Invalid user ID" "0001" none, s)
  | (id, none) =>
    match h.userService.DeleteUser id s with
    | (some err, s1) =>
      if errorsIsRecordNotFound (some err) then
        (ErrorResponse StatusNotFound "User not found" "0002" none, s1)
      else (ErrorResponse StatusInternalServerError err.Error "0003" none, s1)
    | (none, s1) =>
      (SuccessResponse StatusOK (Payload.Map true "User deleted successfully"), s1)

/-- `UserHandler.GetAllUsers`. -/
def UserHandler.GetAllUsers {σ : Type} (h : UserHandler σ) (c : Ctx) (s : σ) : Response × σ :=
  let limit := (Atoi (c.Query "limit" "10")).1
  let offset := (Atoi (c.Query "offset" "0")).1
  match h.userService.GetAllUsers limit offset s with
  | ((_, some _), s1) =>
    (ErrorResponse StatusInternalServerError "Failed to get users" "0001" none, s1)
  | ((users, none), s1) => (SuccessResponse StatusOK (Payload.Entities users), s1)

/-! ## Sample repositories

Concrete implementations of the interface, used to run the code on explicit
inputs. -/

/-- Modelled from the spec: the package `internal/repositories` is not among the
sources.  An in-memory store following the repository contract of the spec:
`Create` assigns the next identifier and persists the record, the lookups
return the matching record or fail with `NotFound`, `Update` overwrites the
mutable fields (name, email, password) of the record with the given identifier
with those of the entity it receives or fails with `NotFound`, `Delete` removes
the record or fails with `NotFound`, `GetAll` returns a page in insertion
order.  There is no clock, so timestamps are left as they are. -/
def memRepo : UserRepository (List User) where
  Create user db :=
    let user := { user with ID := (db.map User.ID).foldl max 0 + 1 }
    ((user, none), db ++ [user])
  GetByID id db :=
    match db.find? (fun u => u.ID = id) with
    | some u => ((some u, none), db)
    | none => ((none, some GoError.ErrRecordNotFound), db)
  GetByEmail email db :=
    match db.find? (fun u => u.Email = email) with
    | some u => ((some u, none), db)
    | none => ((none, some GoError.ErrRecordNotFound), db)
  Update user db :=
    if db.any (fun u => u.ID = user.ID) then
      ((user, none), db.map (fun u =>
        if u.ID = user.ID then
          { u with Name := user.Name, Email := user.Email, Password := user.Password }
        else u))
    else ((user, some GoError.ErrRecordNotFound), db)
  Delete id db :=
    if db.any (fun u => u.ID = id) then (none, db.filter (fun u => u.ID ≠ id))
    else (some GoError.ErrRecordNotFound, db)
  GetAll limit offset db := (((db.drop offset.toNat).take limit.toNat, none), db)

/-- The in-memory store with lookups that report a missing record as a nil
record and a nil error, which the signature `(*entities.User, error)` allows
and which `UpdateUser` and `DeleteUser` test for. -/
def findRepo : UserRepository (List User) :=
  { memRepo with
    GetByID := fun id db => ((db.find? (fun u => u.ID = id), none), db)
    GetByEmail := fun email db => ((db.find? (fun u => u.Email = email), none), db) }

/-- A store that is out of reach: every method fails with the error `e`. -/
def failingRepo (e : GoError) : UserRepository Unit where
  Create user _ := ((user, some e), ())
  GetByID _ _ := ((none, some e), ())
  GetByEmail _ _ := ((none, some e), ())
  Update user _ := ((user, some e), ())
  Delete _ _ := (some e, ())
  GetAll _ _ _ := (([], some e), ())

/-- A sample stored user. -/
def alice : User := { ID := 1, Name := "Al", Email := "a@b.com", Password := "secret1" }

/-- A sample entity for a creation request. -/
def newBob : User := { Name := "Bob", Email := "bob@b.com", Password := "hunter22" }

/-- The envelope of an error response; a success body has none. -/
def Response.Envelope (resp : Response) : Option BaseResponse :=
  match resp.Body with
  | Payload.Error body => some body.Base
  | _ => none

/-- A sample validator: an email is a string with an `@` in it. -/
def sampleValidate : Validate := { isEmail := fun value => value.toList.contains '@' }

/-- A request context with the route parameter `id` and a decoded body. -/
def sampleCtx (id : String) (body : Option BodyFields) : Ctx :=
  { Params := fun key => if key = "id" then id else "",
    QueryArgs := fun _ => "",
    Body := body }

/-- The body of a creation request for Bob. -/
def bobBody : BodyFields := { name := "Bob", email := "bob@b.com", password := "hunter22" }

/-- The entity `UpdateUser` of the handler builds from a route identifier and a
validated body: identifier, name and email, and the password when it is not
empty. -/
def updateEntity (id : Nat) (body : BodyFields) : User :=
  if body.password ≠ "" then
    { ({ ID := id, Name := body.name, Email := body.email } : User) with Password := body.password }
  else { ID := id, Name := body.name, Email := body.email }

/-- A handler over the in-memory store. -/
def memHandler : UserHandler (List User) :=
  NewUserHandler (NewUserService memRepo) sampleValidate

/-- A handler over the in-memory store with nil lookups. -/
def findHandler : UserHandler (List User) :=
  NewUserHandler (NewUserService findRepo) sampleValidate

/-- A success response: status 200 or 201 and a body that is not an error envelope. -/
def Response.IsSuccess (resp : Response) : Prop :=
  (resp.Status = 200 ∨ resp.Status = 201) ∧ resp.Envelope = none

/-- A failure response in the shape the handlers promise: a status from 400 up
and an envelope with `success` false, a non-empty message and one of the three
codes. -/
def Response.IsFailure (resp : Response) : Prop :=
  400 ≤ resp.Status ∧
    ∃ b, resp.Envelope = some b ∧ b.Success = false ∧ b.Message ≠ "" ∧
      (b.Code = "0001" ∨ b.Code = "0002" ∨ b.Code = "0003")

/-- The body of an update request for identifier 1 that leaves the password out. -/
def renameBody : BodyFields := { name := "Alan", email := "a@b.com" }

/-- A decimal digit. -/
def isDecimalDigit (c : Char) : Bool := decide ('0' ≤ c ∧ c ≤ '9')

/-- The number a list of decimal digits denotes in base 10. -/
def decimalValue (cs : List Char) : Nat :=
  cs.foldl (fun n c => n * 10 + (c.toNat - '0'.toNat)) 0

/-- A base-10 unsigned integer representable in 32 bits, in the words of the
claim about route identifiers: a non-empty string of decimal digits whose value
is at most 4294967295. -/
def isUint32Decimal (s : String) : Bool :=
  decide (s.toList ≠ []) && s.toList.all isDecimalDigit &&
    decide (decimalValue s.toList ≤ 4294967295)

/-- The invariant of the spec on a store: no two records share an email.  The
in-memory store removes deleted records, so every record in it is non-deleted. -/
def emailsUnique (db : List User) : Prop := (db.map User.Email).Nodup

/-- A sample entity for a creation request for Al. -/
def newAl : User := { Name := "Al", Email := "a@b.com", Password := "secret1" }

/-- A store whose email lookup hands back a record together with an error, which
the signature `(*entities.User, error)` allows; every other method fails with
that error. -/
def recordAndErrorRepo (found : User) (e : GoError) : UserRepository Unit :=
  { failingRepo e with GetByEmail := fun _ _ => ((some found, some e), ()) }

/-- C1, the claim as stated fails: the email lookup of this store returns the
existing record `alice` together with the error `boom`, which is not a
not-found error; `CreateUser` tests the error first and returns `boom`, not the
conflict error. -/
theorem CreateUser_record_with_error_no_conflict :
    ((recordAndErrorRepo alice (GoError.New "boom")).GetByEmail newBob.Email ()).1 =
        (some alice, some (GoError.New "boom")) ∧
      (UserService.CreateUser (NewUserService (recordAndErrorRepo alice (GoError.New "boom")))
        newBob ()).1.2 = some (GoError.New "boom") ∧
      (UserService.CreateUser (NewUserService (recordAndErrorRepo alice (GoError.New "boom")))
        newBob ()).1.2 ≠ some ErrEmailExists := by
  decide

/-- C1, amended: for every repository and every user whose email lookup returns
an existing record without error (or together with a not-found error, which the
service ignores), `CreateUser` fails with the conflict error
`user with this email already exists`, the entity is left as it was, and the
only repository call made is that `GetByEmail`: `Create` is never invoked. -/
theorem CreateUser_existing_email_conflict {σ : Type} (r : UserRepository σ)
    (user existing : User) (err : Option GoError) (s : σ) (log : List Call)
    (hrec : (r.GetByEmail user.Email s).1 = (some existing, err))
    (herr : err = none ∨ errorsIsRecordNotFound err = true) :
    UserService.CreateUser (NewUserService (traced r)) user (s, log) =
        ((user, some ErrEmailExists),
          ((r.GetByEmail user.Email s).2, log ++ [Call.GetByEmail user.Email])) ∧
      ∀ u, Call.Create u ∈ (UserService.CreateUser (NewUserService (traced r)) user (s, log)).2.2 →
        Call.Create u ∈ log := by
  have hmain : UserService.CreateUser (NewUserService (traced r)) user (s, log) =
      ((user, some ErrEmailExists),
        ((r.GetByEmail user.Email s).2, log ++ [Call.GetByEmail user.Email])) := by
    rcases herr with h | h
    · subst h
      simp [UserService.CreateUser, NewUserService, traced, hrec]
    · simp [UserService.CreateUser, NewUserService, traced, hrec, h]
  refine ⟨hmain, ?_⟩
  intro u hu
  rw [hmain] at hu
  simpa using hu

/-- Witness for C1 amended on the in-memory store holding `alice`. -/
theorem CreateUser_existing_email_conflict_witness :
    UserService.CreateUser (NewUserService (traced memRepo)) { newBob with Email := "a@b.com" }
        ([alice], []) =
      (({ newBob with Email := "a@b.com" }, some ErrEmailExists),
        ([alice], [Call.GetByEmail "a@b.com"])) :=
  (CreateUser_existing_email_conflict memRepo { newBob with Email := "a@b.com" } alice none
    [alice] [] (by decide) (Or.inl rfl)).1

/-- C2: for every repository and user, if `GetByEmail` fails with NotFound and
returns no record, `CreateUser` makes exactly the calls `GetByEmail` and then one
`Create` with that user, and returns exactly what `Create` returns; if
`GetByEmail` fails with any other error, `CreateUser` returns that same error,
and `GetByEmail` is the only call made. -/
theorem CreateUser_lookup_failure {σ : Type} (r : UserRepository σ) (user : User)
    (found : Option User) (e : GoError) (s : σ) (log : List Call)
    (hlookup : (r.GetByEmail user.Email s).1 = (found, some e)) :
    (e.IsRecordNotFound = true → found = none →
      UserService.CreateUser (NewUserService (traced r)) user (s, log) =
        ((r.Create user (r.GetByEmail user.Email s).2).1,
          ((r.Create user (r.GetByEmail user.Email s).2).2,
            log ++ [Call.GetByEmail user.Email, Call.Create user]))) ∧
    (e.IsRecordNotFound = false →
      UserService.CreateUser (NewUserService (traced r)) user (s, log) =
        ((user, some e), ((r.GetByEmail user.Email s).2, log ++ [Call.GetByEmail user.Email]))) := by
  constructor
  · intro he hnone
    subst hnone
    simp [UserService.CreateUser, NewUserService, traced, hlookup, errorsIsRecordNotFound, he]
  · intro he
    simp [UserService.CreateUser, NewUserService, traced, hlookup, errorsIsRecordNotFound, he]

/-- Witness for C2: an unused email on the in-memory store (the lookup fails with
NotFound, the user is created with identifier 2), and a store out of reach (the
lookup fails with another error, which comes back unchanged). -/
theorem CreateUser_lookup_failure_witness :
    UserService.CreateUser (NewUserService (traced memRepo)) newBob ([alice], []) =
        (({ newBob with ID := 2 }, none),
          ([alice, { newBob with ID := 2 }], [Call.GetByEmail "bob@b.com", Call.Create newBob])) ∧
      UserService.CreateUser (NewUserService (traced (failingRepo (GoError.New "connection refused"))))
          newBob ((), []) =
        ((newBob, some (GoError.New "connection refused")), ((), [Call.GetByEmail "bob@b.com"])) :=
  ⟨(CreateUser_lookup_failure memRepo newBob none GoError.ErrRecordNotFound [alice] []
      (by decide)).1 rfl rfl,
    (CreateUser_lookup_failure (failingRepo (GoError.New "connection refused")) newBob none
      (GoError.New "connection refused") () [] rfl).2 rfl⟩

/-- C3, the claim as stated fails: on a store whose lookup reports a missing
record as a nil record with a nil error, `GetByID 7` on the empty store reports
no record, and `GetUserByID 7` returns that result without any error. -/
theorem GetUserByID_no_record_no_failure :
    (findRepo.GetByID 7 []).1 = (none, none) ∧
      (UserService.GetUserByID (NewUserService findRepo) 7 []).1 = (none, none) := by
  decide

/-- C3, amended: `GetUserByID` returns the result of the repository's `GetByID`
unchanged.  For every id for which `GetByID` fails with NotFound, `GetUserByID`,
`UpdateUser` and `DeleteUser` fail with that same error; for every id for which
`GetByID` returns neither a record nor an error, `UpdateUser` and `DeleteUser`
fail with the error `user not found`.  In both cases `GetByID` is the only
repository call: `Update` and `Delete` are not invoked. -/
theorem missing_id_not_found {σ : Type} (r : UserRepository σ) (user : User) (s : σ)
    (log : List Call) :
    UserService.GetUserByID (NewUserService r) user.ID s = r.GetByID user.ID s ∧
    (∀ found e, (r.GetByID user.ID s).1 = (found, some e) → e.IsRecordNotFound = true →
      (UserService.GetUserByID (NewUserService r) user.ID s).1.2 = some e ∧
      UserService.UpdateUser (NewUserService (traced r)) user (s, log) =
        ((user, some e), ((r.GetByID user.ID s).2, log ++ [Call.GetByID user.ID])) ∧
      UserService.DeleteUser (NewUserService (traced r)) user.ID (s, log) =
        (some e, ((r.GetByID user.ID s).2, log ++ [Call.GetByID user.ID]))) ∧
    ((r.GetByID user.ID s).1 = (none, none) →
      UserService.UpdateUser (NewUserService (traced r)) user (s, log) =
        ((user, some ErrUserNotFound), ((r.GetByID user.ID s).2, log ++ [Call.GetByID user.ID])) ∧
      UserService.DeleteUser (NewUserService (traced r)) user.ID (s, log) =
        (some ErrUserNotFound, ((r.GetByID user.ID s).2, log ++ [Call.GetByID user.ID]))) := by
  refine ⟨rfl, ?_, ?_⟩
  · intro found e h _
    refine ⟨?_, ?_, ?_⟩
    · simp [UserService.GetUserByID, NewUserService, h]
    · simp [UserService.UpdateUser, NewUserService, traced, h]
    · simp [UserService.DeleteUser, NewUserService, traced, h]
  · intro h
    constructor
    · simp [UserService.UpdateUser, NewUserService, traced, h]
    · simp [UserService.DeleteUser, NewUserService, traced, h]

/-- Witness for C3 amended: identifier 9 on the in-memory store holding `alice`
(the lookup fails with NotFound), and on the store with nil lookups. -/
theorem missing_id_not_found_witness :
    (UserService.UpdateUser (NewUserService (traced memRepo)) { newBob with ID := 9 } ([alice], []) =
        (({ newBob with ID := 9 }, some GoError.ErrRecordNotFound), ([alice], [Call.GetByID 9])) ∧
      UserService.DeleteUser (NewUserService (traced memRepo)) 9 ([alice], []) =
        (some GoError.ErrRecordNotFound, ([alice], [Call.GetByID 9]))) ∧
    (UserService.UpdateUser (NewUserService (traced findRepo)) { newBob with ID := 9 } ([alice], []) =
        (({ newBob with ID := 9 }, some ErrUserNotFound), ([alice], [Call.GetByID 9])) ∧
      UserService.DeleteUser (NewUserService (traced findRepo)) 9 ([alice], []) =
        (some ErrUserNotFound, ([alice], [Call.GetByID 9]))) :=
  ⟨((missing_id_not_found memRepo { newBob with ID := 9 } [alice] []).2.1 none
      GoError.ErrRecordNotFound (by decide) rfl).2,
    (missing_id_not_found findRepo { newBob with ID := 9 } [alice] []).2.2 (by decide)⟩

/-- C4: for every pair of integers, `GetAllUsers limit offset` makes exactly one
repository call, `GetAll` with the limit replaced by 10 when it is not positive
and the offset replaced by 0 when it is negative, and returns its result; so
limit 0 behaves as limit 10, offset -1 as offset 0, and the repository receives
a positive limit and a non-negative offset. -/
theorem GetAllUsers_normalises {σ : Type} (r : UserRepository σ) (limit offset : Int) (s : σ)
    (log : List Call) :
    UserService.GetAllUsers (NewUserService (traced r)) limit offset (s, log) =
        ((r.GetAll (if limit ≤ 0 then 10 else limit) (if offset < 0 then 0 else offset) s).1,
          ((r.GetAll (if limit ≤ 0 then 10 else limit) (if offset < 0 then 0 else offset) s).2,
            log ++ [Call.GetAll (if limit ≤ 0 then 10 else limit)
              (if offset < 0 then 0 else offset)])) ∧
      UserService.GetAllUsers (NewUserService r) limit offset s =
        r.GetAll (if limit ≤ 0 then 10 else limit) (if offset < 0 then 0 else offset) s ∧
      UserService.GetAllUsers (NewUserService r) 0 offset s =
        UserService.GetAllUsers (NewUserService r) 10 offset s ∧
      UserService.GetAllUsers (NewUserService r) limit (-1) s =
        UserService.GetAllUsers (NewUserService r) limit 0 s ∧
      (0 : Int) < (if limit ≤ 0 then 10 else limit) ∧
      (0 : Int) ≤ (if offset < 0 then 0 else offset) := by
  refine ⟨rfl, rfl, ?_, ?_, ?_, ?_⟩
  · simp [UserService.GetAllUsers]
  · simp [UserService.GetAllUsers]
  · split <;> omega
  · split <;> omega

/-! ## Theorems: response envelope and handlers -/

theorem errorMessage_ne_empty (code : String) : errorMessage code ≠ "" := by
  unfold errorMessage codeList
  by_cases h : code = "0001"
  · subst h; decide
  · have : (code == "0001") = false := by simpa using h
    simp [List.lookup, this]

theorem errorMessage_unknown (code : String) (h : code ≠ "0001") :
    errorMessage code = "Something went wrong" := by
  have : (code == "0001") = false := by simpa using h
  simp [errorMessage, codeList, List.lookup, this]

theorem Error_message_ne_empty (message code : String) : (Error message code).Message ≠ "" := by
  unfold Error
  by_cases hm : message = ""
  · simp only [hm, if_true]
    exact errorMessage_ne_empty _
  · simp [hm]

theorem ErrorResponse_envelope (statusCode : Nat) (message code : String)
    (errors : Option String) :
    (ErrorResponse statusCode message code errors).Status = statusCode ∧
      (ErrorResponse statusCode message code errors).Envelope = some (Error message code) := by
  simp [ErrorResponse, Error, Response.Envelope]

theorem updateEntity_eq (id : Nat) (body : BodyFields) :
    updateEntity id body =
      { ID := id, Name := body.name, Email := body.email, Password := body.password } := by
  unfold updateEntity
  split
  · rfl
  · next h =>
    have h2 : body.password = "" := by simpa using h
    simp [h2]

/-- C6, the code at the failing input: on a store whose `GetByID` returns neither
a record nor an error for identifier 1, the Service reports that no user exists
(`UpdateUser` and `DeleteUser` fail with `user not found`), and the update and
delete handlers answer with status 500 and envelope code `0003`, not 404 and
`0002`. -/
theorem service_user_not_found_answered_500 :
    (UserService.DeleteUser (NewUserService findRepo) 1 []).1 = some ErrUserNotFound ∧
      (findHandler.DeleteUser (sampleCtx "1" none) []).1 =
        { Status := 500,
          Body := Payload.Error
            { Base := { Success := false, Message := "user not found", Code := "0003" },
              Errors := none } } ∧
      (UserService.UpdateUser (NewUserService findRepo) (updateEntity 1 bobBody) []).1.2 =
        some ErrUserNotFound ∧
      (findHandler.UpdateUser (sampleCtx "1" (some bobBody)) []).1 =
        { Status := 500,
          Body := Payload.Error
            { Base := { Success := false, Message := "user not found", Code := "0003" },
              Errors := none } } := by
  decide

/-- The part of C6 that holds: in the get, update and delete handlers a Service
failure whose chain holds the storage sentinel `ErrRecordNotFound` is answered
with status 404 and the envelope with `success` false, message `User not found`
and code `0002`. -/
theorem sentinel_not_found_answered_404 {σ : Type} (h : UserHandler σ) (c : Ctx) (s : σ)
    (id : Nat) (body : BodyFields) (e : GoError) (he : e.IsRecordNotFound = true)
    (hp : ParseUint (c.Params "id") 10 32 = (id, none)) :
    ((h.userService.GetUserByID id s).1.2 = some e →
      (h.GetUser c s).1.Status = 404 ∧
        (h.GetUser c s).1.Envelope =
          some { Success := false, Message := "User not found", Code := "0002" }) ∧
    (c.Body = some body →
      h.validator.StructUpdate
        { Name := body.name, Email := body.email, Password := body.password } = [] →
      (h.userService.UpdateUser (updateEntity id body) s).1.2 = some e →
      (h.UpdateUser c s).1.Status = 404 ∧
        (h.UpdateUser c s).1.Envelope =
          some { Success := false, Message := "User not found", Code := "0002" }) ∧
    ((h.userService.DeleteUser id s).1 = some e →
      (h.DeleteUser c s).1.Status = 404 ∧
        (h.DeleteUser c s).1.Envelope =
          some { Success := false, Message := "User not found", Code := "0002" }) := by
  refine ⟨?_, ?_, ?_⟩
  · intro hs
    unfold UserHandler.GetUser
    simp only [hp]
    rcases hres : h.userService.GetUserByID id s with ⟨⟨u, err⟩, s1⟩
    rw [hres] at hs
    simp only at hs
    subst hs
    simp only [errorsIsRecordNotFound, he]
    exact ⟨rfl, rfl⟩
  · intro hb hv hs
    unfold UserHandler.UpdateUser
    simp only [hp, hb, hv]
    unfold updateEntity at hs
    rcases hres : h.userService.UpdateUser _ s with ⟨⟨u, err⟩, s1⟩
    simp only [ne_eq, not_true_eq_false, if_false]
    rw [hres] at hs
    simp only at hs
    subst hs
    simp only [errorsIsRecordNotFound, he]
    exact ⟨rfl, rfl⟩
  · intro hs
    unfold UserHandler.DeleteUser
    simp only [hp]
    rcases hres : h.userService.DeleteUser id s with ⟨err, s1⟩
    rw [hres] at hs
    simp only at hs
    subst hs
    simp only [errorsIsRecordNotFound, he]
    exact ⟨rfl, rfl⟩

/-- The scenario of the spec: GET `/users/999999` on the empty in-memory store
is answered 404 with code `0002`. -/
theorem sentinel_not_found_answered_404_witness :
    (memHandler.GetUser (sampleCtx "999999" none) []).1.Status = 404 ∧
      (memHandler.GetUser (sampleCtx "999999" none) []).1.Envelope =
        some { Success := false, Message := "User not found", Code := "0002" } :=
  (sentinel_not_found_answered_404 memHandler (sampleCtx "999999" none) [] 999999 bobBody
    GoError.ErrRecordNotFound rfl (by decide)).1 (by decide)

theorem Error_code (message code : String) :
    (Error message code).Code = if code = "" then "0001" else code := rfl

theorem ErrorResponse_isFailure (statusCode : Nat) (message code : String)
    (hs : 400 ≤ statusCode) (hc : code = "0001" ∨ code = "0002" ∨ code = "0003") :
    (ErrorResponse statusCode message code none).IsFailure := by
  refine ⟨hs, Error message code, (ErrorResponse_envelope _ _ _ _).2, rfl,
    Error_message_ne_empty _ _, ?_⟩
  rw [Error_code]
  rcases hc with h | h | h <;> subst h <;> decide

theorem SuccessResponse_isSuccess (statusCode : Nat) (data : Payload)
    (hs : statusCode = 200 ∨ statusCode = 201) (hd : ∀ body, data ≠ Payload.Error body) :
    (SuccessResponse statusCode data).IsSuccess := by
  refine ⟨hs, ?_⟩
  cases data with
  | Error body => exact absurd rfl (hd body)
  | Entity user => rfl
  | Entities users => rfl
  | Map success message => rfl

/-- C7: every response built by `ErrorResponse` carries the envelope built by
`Error` from the same message and code, and that envelope has `success` false, a
non-empty message and a non-empty code: an empty code becomes `0001`, an empty
message becomes `General error` for the code `0001` (also when that code stands
in for an empty one) and `Something went wrong` for any other code, and a
non-empty message and a non-empty code are kept.  Every response of the five
user handlers is either a success (status 200 or 201, no envelope) or a failure
with status from 400 up, `success` false, a non-empty message and a code among
`0001`, `0002`, `0003`. -/
theorem error_envelope_well_formed {σ : Type} (statusCode : Nat) (message code : String)
    (errors : Option String) (h : UserHandler σ) (c : Ctx) (s : σ) :
    ((ErrorResponse statusCode message code errors).Status = statusCode ∧
      (ErrorResponse statusCode message code errors).Envelope = some (Error message code)) ∧
    ((Error message code).Success = false ∧ (Error message code).Message ≠ "" ∧
      (Error message code).Code ≠ "") ∧
    ((Error message "").Code = "0001" ∧ (Error "" "").Message = "General error" ∧
      (Error "" "0001").Message = "General error") ∧
    (code ≠ "" → code ≠ "0001" → (Error "" code).Message = "Something went wrong") ∧
    (message ≠ "" → (Error message code).Message = message) ∧
    (code ≠ "" → (Error message code).Code = code) ∧
    (((h.CreateUser c s).1.IsSuccess ∨ (h.CreateUser c s).1.IsFailure) ∧
      ((h.GetUser c s).1.IsSuccess ∨ (h.GetUser c s).1.IsFailure) ∧
      ((h.UpdateUser c s).1.IsSuccess ∨ (h.UpdateUser c s).1.IsFailure) ∧
      ((h.DeleteUser c s).1.IsSuccess ∨ (h.DeleteUser c s).1.IsFailure) ∧
      ((h.GetAllUsers c s).1.IsSuccess ∨ (h.GetAllUsers c s).1.IsFailure)) := by
  have ok400 : ∀ m, (ErrorResponse StatusBadRequest m "0001" none).IsFailure := fun m =>
    ErrorResponse_isFailure _ _ _ (by decide) (Or.inl rfl)
  refine ⟨ErrorResponse_envelope _ _ _ _, ⟨rfl, Error_message_ne_empty _ _, ?_⟩,
    ⟨rfl, by decide, by decide⟩, ?_, ?_, ?_, ?_, ?_, ?_, ?_, ?_⟩
  · rw [Error_code]
    split
    · decide
    · assumption
  · intro h1 h2
    simp only [Error, h1, if_false, if_true]
    exact errorMessage_unknown code h2
  · intro h1
    simp [Error, h1]
  · intro h1
    simp [Error, h1]
  · unfold UserHandler.CreateUser
    split
    · exact Or.inr (ok400 _)
    · simp only []
      split
      · exact Or.inr (ok400 _)
      · split
        · exact Or.inr (ErrorResponse_isFailure _ _ _ (by decide) (Or.inr (Or.inl rfl)))
        · exact Or.inl (SuccessResponse_isSuccess _ _ (Or.inr rfl) (by intro b hb; cases hb))
  · unfold UserHandler.GetUser
    simp only []
    split
    · exact Or.inr (ok400 _)
    · split
      · split
        · exact Or.inr (ErrorResponse_isFailure _ _ _ (by decide) (Or.inr (Or.inl rfl)))
        · exact Or.inr (ErrorResponse_isFailure _ _ _ (by decide) (Or.inr (Or.inr rfl)))
      · exact Or.inl (SuccessResponse_isSuccess _ _ (Or.inl rfl) (by intro b hb; cases hb))
  · unfold UserHandler.UpdateUser
    simp only []
    split
    · exact Or.inr (ok400 _)
    · split
      · exact Or.inr (ok400 _)
      · split
        · exact Or.inr (ok400 _)
        · split
          · split
            · exact Or.inr (ErrorResponse_isFailure _ _ _ (by decide) (Or.inr (Or.inl rfl)))
            · exact Or.inr (ErrorResponse_isFailure _ _ _ (by decide) (Or.inr (Or.inr rfl)))
          · exact Or.inl (SuccessResponse_isSuccess _ _ (Or.inl rfl) (by intro b hb; cases hb))
  · unfold UserHandler.DeleteUser
    simp only []
    split
    · exact Or.inr (ok400 _)
    · split
      · split
        · exact Or.inr (ErrorResponse_isFailure _ _ _ (by decide) (Or.inr (Or.inl rfl)))
        · exact Or.inr (ErrorResponse_isFailure _ _ _ (by decide) (Or.inr (Or.inr rfl)))
      · exact Or.inl (SuccessResponse_isSuccess _ _ (Or.inl rfl) (by intro b hb; cases hb))
  · unfold UserHandler.GetAllUsers
    simp only []
    split
    · exact Or.inr (ErrorResponse_isFailure _ _ _ (by decide) (Or.inl rfl))
    · exact Or.inl (SuccessResponse_isSuccess _ _ (Or.inl rfl) (by intro b hb; cases hb))

/-- Witness for C7: an unknown code with an empty message, and a message and a
code that are kept. -/
theorem error_envelope_well_formed_witness :
    (Error "" "0404").Message = "Something went wrong" ∧
      (Error "Invalid user ID" "0404").Message = "Invalid user ID" ∧
      (Error "Invalid user ID" "0404").Code = "0404" :=
  ⟨(error_envelope_well_formed 400 "Invalid user ID" "0404" none memHandler
      (sampleCtx "" none) []).2.2.2.1 (by decide) (by decide),
    (error_envelope_well_formed 400 "Invalid user ID" "0404" none memHandler
      (sampleCtx "" none) []).2.2.2.2.1 (by decide),
    (error_envelope_well_formed 400 "Invalid user ID" "0404" none memHandler
      (sampleCtx "" none) []).2.2.2.2.2.1 (by decide)⟩

/-- C8, the code at the failing input: the in-memory store, whose `Update`
overwrites name, email and password of the record with those of the entity it
receives, holds a user with identifier 1 and password `secret1`; a PUT for
identifier 1 with a valid name and email and no password is answered 200, and
afterwards the stored password is empty, not `secret1`. -/
theorem update_without_password_erases_it :
    [alice].map User.Password = ["secret1"] ∧
      sampleValidate.StructUpdate
        { Name := renameBody.name, Email := renameBody.email, Password := renameBody.password } =
        [] ∧
      (memHandler.UpdateUser (sampleCtx "1" (some renameBody)) [alice]).1.Status = 200 ∧
      (memHandler.UpdateUser (sampleCtx "1" (some renameBody)) [alice]).2.map User.Password =
        [""] := by
  decide

/-- The entity the update handler hands to the Service always carries the
password field of the request, empty or not, and after a PUT answered 200 on the
in-memory store every record with the route identifier holds the name, the
email and the password of the request. -/
theorem update_stores_request_fields (v : Validate) (c : Ctx) (db : List User) (id : Nat)
    (body : BodyFields) (hp : ParseUint (c.Params "id") 10 32 = (id, none))
    (hb : c.Body = some body)
    (hok : ((NewUserHandler (NewUserService memRepo) v).UpdateUser c db).1.Status = 200) :
    (updateEntity id body).Password = body.password ∧
      ∀ u ∈ ((NewUserHandler (NewUserService memRepo) v).UpdateUser c db).2, u.ID = id →
        u.Name = body.name ∧ u.Email = body.email ∧ u.Password = body.password := by
  refine ⟨by rw [updateEntity_eq], ?_⟩
  have hent := updateEntity_eq id body
  unfold updateEntity at hent
  revert hok
  unfold UserHandler.UpdateUser
  simp only [hp, hb, NewUserHandler]
  split
  · intro hok
    simp [ErrorResponse, StatusBadRequest] at hok
  · simp only [hent, UserService.UpdateUser, NewUserService, memRepo]
    cases hfind : List.find? (fun u => decide (u.ID = id)) db with
    | none =>
      intro hok
      simp [ErrorResponse, StatusNotFound, errorsIsRecordNotFound,
        GoError.IsRecordNotFound] at hok
    | some found =>
      by_cases hany : (db.any fun u => decide (u.ID = id)) = true
      · simp only [hany, ne_eq, not_true_eq_false, if_false, if_true, reduceCtorEq]
        intro _ u hu hid
        rw [List.mem_map] at hu
        obtain ⟨w, _, hw⟩ := hu
        by_cases hwid : w.ID = id
        · simp only [hwid, if_true] at hw
          subst hw
          exact ⟨rfl, rfl, rfl⟩
        · simp only [hwid, if_false] at hw
          subst hw
          exact absurd hid hwid
      · intro hok
        simp [hany, ErrorResponse, StatusNotFound, errorsIsRecordNotFound,
          GoError.IsRecordNotFound] at hok

/-- A PUT with a password on the in-memory store holding `alice` replaces the
stored password. -/
theorem update_stores_request_fields_witness :
    ∀ u ∈ (memHandler.UpdateUser (sampleCtx "1" (some { renameBody with password := "newpass9" }))
        [alice]).2, u.ID = 1 →
      u.Name = "Alan" ∧ u.Email = "a@b.com" ∧ u.Password = "newpass9" :=
  (update_stores_request_fields sampleValidate
    (sampleCtx "1" (some { renameBody with password := "newpass9" })) [alice] 1
    { renameBody with password := "newpass9" } (by decide) rfl (by decide)).2

/-! ## Theorems: validation -/

theorem fieldErrors_ne_nil (structName field tag : String) :
    fieldErrors structName field (some tag) ≠ [] := by
  simp [fieldErrors]

theorem checkRequiredMinMax_bounds (value : String)
    (hv : value.length < 2 ∨ 100 < value.length) :
    ∃ tag, checkRequiredMinMax value 2 100 = some tag := by
  unfold checkRequiredMinMax
  by_cases h0 : value = ""
  · exact ⟨"required", by simp [h0]⟩
  · by_cases h1 : value.length < 2
    · exact ⟨"min", by simp [h0, h1]⟩
    · have h2 : 100 < value.length := by omega
      exact ⟨"max", by simp [h0, h1, h2]⟩

theorem checkRequiredMin_short (value : String) (hv : value.length < 6) :
    ∃ tag, checkRequiredMin value 6 = some tag := by
  unfold checkRequiredMin
  by_cases h0 : value = ""
  · exact ⟨"required", by simp [h0]⟩
  · exact ⟨"min", by simp [h0, hv]⟩

theorem StructCreate_rejects (v : Validate) (body : BodyFields)
    (hbad : body.name.length < 2 ∨ 100 < body.name.length ∨ body.password.length < 6 ∨
      body.email = "") :
    v.StructCreate { Name := body.name, Email := body.email, Password := body.password } ≠ [] := by
  unfold Validate.StructCreate
  rcases hbad with h | h | h | h
  · obtain ⟨tag, ht⟩ := checkRequiredMinMax_bounds body.name (Or.inl h)
    simp [ht, fieldErrors]
  · obtain ⟨tag, ht⟩ := checkRequiredMinMax_bounds body.name (Or.inr h)
    simp [ht, fieldErrors]
  · obtain ⟨tag, ht⟩ := checkRequiredMin_short body.password h
    simp [ht, fieldErrors]
  · simp [Validate.checkRequiredEmail, h, fieldErrors]

theorem StructUpdate_rejects (v : Validate) (body : BodyFields)
    (hbad : body.name.length < 2 ∨ 100 < body.name.length ∨
      (body.password ≠ "" ∧ body.password.length < 6) ∨ body.email = "") :
    v.StructUpdate { Name := body.name, Email := body.email, Password := body.password } ≠ [] := by
  unfold Validate.StructUpdate
  rcases hbad with h | h | h | h
  · obtain ⟨tag, ht⟩ := checkRequiredMinMax_bounds body.name (Or.inl h)
    simp [ht, fieldErrors]
  · obtain ⟨tag, ht⟩ := checkRequiredMinMax_bounds body.name (Or.inr h)
    simp [ht, fieldErrors]
  · simp [checkOmitemptyMin, h.1, h.2, fieldErrors]
  · simp [Validate.checkRequiredEmail, h, fieldErrors]

theorem StructUpdate_accepts (v : Validate) (body : BodyFields)
    (h1 : 2 ≤ body.name.length) (h2 : body.name.length ≤ 100) (h3 : v.isEmail body.email = true)
    (h4 : body.email ≠ "") (h5 : body.password = "") :
    v.StructUpdate { Name := body.name, Email := body.email, Password := body.password } = [] := by
  have hn : body.name ≠ "" := by
    intro h
    rw [h] at h1
    exact absurd h1 (by decide)
  have h1' : ¬ body.name.length < 2 := by omega
  have h2' : ¬ body.name.length > 100 := by omega
  simp [Validate.StructUpdate, checkRequiredMinMax, Validate.checkRequiredEmail,
    checkOmitemptyMin, fieldErrors, hn, h1', h2', h3, h4, h5]

theorem traced_UpdateUser_log {σ : Type} (r : UserRepository σ) (user : User) (s : σ)
    (log : List Call) :
    ∃ rest, (UserService.UpdateUser (NewUserService (traced r)) user (s, log)).2.2 =
      log ++ Call.GetByID user.ID :: rest := by
  unfold UserService.UpdateUser
  simp only [NewUserService, traced]
  split
  · exact ⟨[], rfl⟩
  · split
    · exact ⟨[], rfl⟩
    · exact ⟨[Call.Update user], by simp⟩

theorem traced_DeleteUser_log {σ : Type} (r : UserRepository σ) (id : Nat) (s : σ)
    (log : List Call) :
    ∃ rest, (UserService.DeleteUser (NewUserService (traced r)) id (s, log)).2.2 =
      log ++ Call.GetByID id :: rest := by
  unfold UserService.DeleteUser
  simp only [NewUserService, traced]
  split
  · exact ⟨[], rfl⟩
  · split
    · exact ⟨[], rfl⟩
    · exact ⟨[Call.Delete id], by simp⟩

theorem bad_request_shape (message : String) :
    (ErrorResponse StatusBadRequest message "0001" none).Status = 400 ∧
      ∃ b, (ErrorResponse StatusBadRequest message "0001" none).Envelope = some b ∧
        b.Success = false ∧ b.Code = "0001" ∧ b.Message ≠ "" :=
  ⟨rfl, Error message "0001", (ErrorResponse_envelope _ _ _ _).2, rfl, by rw [Error_code]; decide,
    Error_message_ne_empty _ _⟩

theorem UpdateUser_handler_state {σ : Type} (h : UserHandler σ) (c : Ctx) (s : σ) (id : Nat)
    (body : BodyFields) (hp : ParseUint (c.Params "id") 10 32 = (id, none))
    (hb : c.Body = some body)
    (hv : h.validator.StructUpdate
      { Name := body.name, Email := body.email, Password := body.password } = []) :
    (h.UpdateUser c s).2 = (h.userService.UpdateUser (updateEntity id body) s).2 := by
  unfold UserHandler.UpdateUser updateEntity
  simp only [hp, hb, hv, ne_eq, not_true_eq_false, if_false]
  split
  · split <;> simp_all
  · simp_all

theorem DeleteUser_handler_state {σ : Type} (h : UserHandler σ) (c : Ctx) (s : σ) (id : Nat)
    (hp : ParseUint (c.Params "id") 10 32 = (id, none)) :
    (h.DeleteUser c s).2 = (h.userService.DeleteUser id s).2 := by
  unfold UserHandler.DeleteUser
  simp only [hp]
  split
  · split <;> simp_all
  · simp_all

theorem GetUser_handler_state {σ : Type} (h : UserHandler σ) (c : Ctx) (s : σ) (id : Nat)
    (hp : ParseUint (c.Params "id") 10 32 = (id, none)) :
    (h.GetUser c s).2 = (h.userService.GetUserByID id s).2 := by
  unfold UserHandler.GetUser
  simp only [hp]
  split
  · split <;> simp_all
  · simp_all

/-- C9: for every create request whose name has fewer than 2 or more than 100
characters, or whose password has fewer than 6 characters, or whose email is
empty (a missing field is the empty string), the create handler answers with
status 400 and envelope code `0001` and makes no repository call, the store
being left as it was; the update handler does the same for the name bounds, for
an empty email and for a non-empty password shorter than 6; and an update
request with a valid name and email and an empty password passes validation and
reaches the Service, whose lookup of the route identifier is the next call. -/
theorem invalid_fields_rejected {σ : Type} (r : UserRepository σ) (v : Validate) (c : Ctx)
    (body : BodyFields) (s : σ) (log : List Call) (hb : c.Body = some body) :
    ((body.name.length < 2 ∨ 100 < body.name.length ∨ body.password.length < 6 ∨
        body.email = "") →
      ((NewUserHandler (NewUserService (traced r)) v).CreateUser c (s, log)).2 = (s, log) ∧
      ((NewUserHandler (NewUserService (traced r)) v).CreateUser c (s, log)).1.Status = 400 ∧
      ∃ b, ((NewUserHandler (NewUserService (traced r)) v).CreateUser c (s, log)).1.Envelope =
          some b ∧ b.Success = false ∧ b.Code = "0001" ∧ b.Message ≠ "") ∧
    ((body.name.length < 2 ∨ 100 < body.name.length ∨
        (body.password ≠ "" ∧ body.password.length < 6) ∨ body.email = "") →
      ((NewUserHandler (NewUserService (traced r)) v).UpdateUser c (s, log)).2 = (s, log) ∧
      ((NewUserHandler (NewUserService (traced r)) v).UpdateUser c (s, log)).1.Status = 400 ∧
      ∃ b, ((NewUserHandler (NewUserService (traced r)) v).UpdateUser c (s, log)).1.Envelope =
          some b ∧ b.Success = false ∧ b.Code = "0001" ∧ b.Message ≠ "") ∧
    (2 ≤ body.name.length → body.name.length ≤ 100 → v.isEmail body.email = true →
      body.email ≠ "" → body.password = "" →
      v.StructUpdate { Name := body.name, Email := body.email, Password := body.password } = [] ∧
      ∀ id, ParseUint (c.Params "id") 10 32 = (id, none) →
        ∃ rest, ((NewUserHandler (NewUserService (traced r)) v).UpdateUser c (s, log)).2.2 =
          log ++ Call.GetByID id :: rest) := by
  refine ⟨?_, ?_, ?_⟩
  · intro hbad
    have hrej := StructCreate_rejects v body hbad
    have hstep : (NewUserHandler (NewUserService (traced r)) v).CreateUser c (s, log) =
        (ErrorResponse StatusBadRequest
          ("Validation failed: " ++ ValidationErrors.Error
            (v.StructCreate { Name := body.name, Email := body.email, Password := body.password }))
          "0001" none, (s, log)) := by
      unfold UserHandler.CreateUser
      simp only [hb, NewUserHandler]
      rw [if_pos hrej]
    rw [hstep]
    exact ⟨rfl, bad_request_shape _⟩
  · intro hbad
    have hrej := StructUpdate_rejects v body hbad
    have hstep : ∃ message, (NewUserHandler (NewUserService (traced r)) v).UpdateUser c (s, log) =
        (ErrorResponse StatusBadRequest message "0001" none, (s, log)) := by
      unfold UserHandler.UpdateUser
      simp only [hb, NewUserHandler]
      split
      · exact ⟨_, rfl⟩
      · rw [if_pos hrej]
        exact ⟨_, rfl⟩
    obtain ⟨message, hstep⟩ := hstep
    rw [hstep]
    exact ⟨rfl, bad_request_shape _⟩
  · intro h1 h2 h3 h4 h5
    have hacc := StructUpdate_accepts v body h1 h2 h3 h4 h5
    refine ⟨hacc, ?_⟩
    intro id hp
    rw [UpdateUser_handler_state _ c (s, log) id body hp hb hacc]
    have hid : (updateEntity id body).ID = id := by rw [updateEntity_eq]
    have := traced_UpdateUser_log r (updateEntity id body) s log
    rw [hid] at this
    exact this

/-- Witness for C9 on the in-memory store holding `alice`: a create request with
a one-letter name, an update request with a three-letter password, and an
update request without a password. -/
theorem invalid_fields_rejected_witness :
    (((NewUserHandler (NewUserService (traced memRepo)) sampleValidate).CreateUser
        (sampleCtx "1" (some { bobBody with name := "B" })) ([alice], [])).2 = ([alice], []) ∧
      ((NewUserHandler (NewUserService (traced memRepo)) sampleValidate).CreateUser
        (sampleCtx "1" (some { bobBody with name := "B" })) ([alice], [])).1.Status = 400) ∧
    (((NewUserHandler (NewUserService (traced memRepo)) sampleValidate).UpdateUser
        (sampleCtx "1" (some { bobBody with password := "abc" })) ([alice], [])).2 = ([alice], []) ∧
      ((NewUserHandler (NewUserService (traced memRepo)) sampleValidate).UpdateUser
        (sampleCtx "1" (some { bobBody with password := "abc" })) ([alice], [])).1.Status = 400) ∧
    (∃ rest, ((NewUserHandler (NewUserService (traced memRepo)) sampleValidate).UpdateUser
        (sampleCtx "1" (some renameBody)) ([alice], [])).2.2 = [] ++ Call.GetByID 1 :: rest) :=
  ⟨⟨((invalid_fields_rejected memRepo sampleValidate
        (sampleCtx "1" (some { bobBody with name := "B" })) { bobBody with name := "B" }
        [alice] [] rfl).1 (Or.inl (by decide))).1,
      ((invalid_fields_rejected memRepo sampleValidate
        (sampleCtx "1" (some { bobBody with name := "B" })) { bobBody with name := "B" }
        [alice] [] rfl).1 (Or.inl (by decide))).2.1⟩,
    ⟨((invalid_fields_rejected memRepo sampleValidate
        (sampleCtx "1" (some { bobBody with password := "abc" }))
        { bobBody with password := "abc" } [alice] [] rfl).2.1
        (Or.inr (Or.inr (Or.inl ⟨by decide, by decide⟩)))).1,
      ((invalid_fields_rejected memRepo sampleValidate
        (sampleCtx "1" (some { bobBody with password := "abc" }))
        { bobBody with password := "abc" } [alice] [] rfl).2.1
        (Or.inr (Or.inr (Or.inl ⟨by decide, by decide⟩)))).2.1⟩,
    ((invalid_fields_rejected memRepo sampleValidate (sampleCtx "1" (some renameBody)) renameBody
      [alice] [] rfl).2.2 (by decide) (by decide) (by decide) (by decide) rfl).2 1 (by decide)⟩

/-! ## Theorems: route identifiers -/

theorem char_le_iff (a b : Char) : a ≤ b ↔ a.toNat ≤ b.toNat := by
  rw [Char.le_def, UInt32.le_def, BitVec.le_def]
  rfl

theorem digitVal_of_digit (c : Char) (h : isDecimalDigit c = true) :
    digitVal c = some (c.toNat - '0'.toNat) ∧ c.toNat - '0'.toNat < 10 := by
  have h' : '0' ≤ c ∧ c ≤ '9' := by simpa [isDecimalDigit] using h
  refine ⟨by simp [digitVal, h'], ?_⟩
  have h9 := (char_le_iff c '9').1 h'.2
  have : '9'.toNat = 57 := by decide
  have : '0'.toNat = 48 := by decide
  omega

theorem digitVal_of_not_digit (c : Char) (h : isDecimalDigit c = false) :
    digitVal c = none ∨ ∃ d, digitVal c = some d ∧ 10 ≤ d := by
  have h' : ¬ ('0' ≤ c ∧ c ≤ '9') := by simpa [isDecimalDigit] using h
  unfold digitVal
  rw [if_neg h']
  split
  · exact Or.inr ⟨_, rfl, by omega⟩
  · split
    · exact Or.inr ⟨_, rfl, by omega⟩
    · exact Or.inl rfl

theorem decimal_foldl_ge (cs : List Char) (n : Nat) :
    n ≤ cs.foldl (fun n c => n * 10 + (c.toNat - '0'.toNat)) n := by
  induction cs generalizing n with
  | nil => exact Nat.le_refl _
  | cons c cs ih =>
    simp only [List.foldl_cons]
    have := ih (n * 10 + (c.toNat - '0'.toNat))
    omega

theorem parseUintLoop_ok (cutoff maxVal : Nat) (hcut : maxVal < cutoff) (cs : List Char) :
    ∀ n, n ≤ maxVal → (∀ c ∈ cs, isDecimalDigit c = true) →
      cs.foldl (fun n c => n * 10 + (c.toNat - '0'.toNat)) n ≤ maxVal →
      parseUintLoop 10 cutoff maxVal cs n =
        (cs.foldl (fun n c => n * 10 + (c.toNat - '0'.toNat)) n, none) := by
  induction cs with
  | nil => intro n _ _ _; rfl
  | cons c cs ih =>
    intro n hn hall hval
    obtain ⟨hd, hlt⟩ := digitVal_of_digit c (hall c (List.mem_cons_self _ _))
    simp only [List.foldl_cons] at hval ⊢
    have hge := decimal_foldl_ge cs (n * 10 + (c.toNat - '0'.toNat))
    have h1 : ¬ (c.toNat - '0'.toNat ≥ 10) := by omega
    have h2 : ¬ (n ≥ cutoff) := by omega
    have h3 : ¬ (n * 10 + (c.toNat - '0'.toNat) > maxVal) := by omega
    unfold parseUintLoop
    simp only [hd, h1, h2, h3, if_false]
    exact ih _ (by omega) (fun x hx => hall x (List.mem_cons_of_mem _ hx)) hval

theorem parseUintLoop_err (cutoff maxVal : Nat) (cs : List Char) :
    ∀ n, ¬ ((∀ c ∈ cs, isDecimalDigit c = true) ∧
        cs.foldl (fun n c => n * 10 + (c.toNat - '0'.toNat)) n ≤ maxVal) → n ≤ maxVal →
      ∃ value e, parseUintLoop 10 cutoff maxVal cs n = (value, some e) := by
  induction cs with
  | nil =>
    intro n hnot hn
    exact absurd ⟨fun c hc => absurd hc (List.not_mem_nil c), hn⟩ hnot
  | cons c cs ih =>
    intro n hnot hn
    unfold parseUintLoop
    cases hdig : isDecimalDigit c with
    | false =>
      rcases digitVal_of_not_digit c hdig with h | ⟨d, h, hd⟩
      · simp only [h]
        exact ⟨_, _, rfl⟩
      · simp only [h]
        rw [if_pos hd]
        exact ⟨_, _, rfl⟩
    | true =>
      obtain ⟨hd, hlt⟩ := digitVal_of_digit c hdig
      simp only [hd]
      rw [if_neg (by omega)]
      split
      · exact ⟨_, _, rfl⟩
      · split
        · exact ⟨_, _, rfl⟩
        · next hle =>
          apply ih
          · intro hcon
            apply hnot
            refine ⟨?_, by simpa using hcon.2⟩
            intro x hx
            rcases List.mem_cons.1 hx with hx | hx
            · rw [hx]; exact hdig
            · exact hcon.1 x hx
          · omega

theorem ParseUint_of_valid (s : String) (h : isUint32Decimal s = true) :
    ParseUint s 10 32 = (decimalValue s.toList, none) := by
  simp only [isUint32Decimal, Bool.and_eq_true, decide_eq_true_eq, List.all_eq_true] at h
  obtain ⟨⟨hne, hall⟩, hval⟩ := h
  unfold ParseUint ParseUintChars
  rw [if_neg hne]
  exact parseUintLoop_ok _ _ (by decide) s.toList 0 (by decide) hall hval

theorem ParseUint_of_invalid (s : String) (h : isUint32Decimal s = false) :
    ∃ value e, ParseUint s 10 32 = (value, some e) := by
  unfold ParseUint ParseUintChars
  by_cases hne : s.toList = []
  · rw [if_pos hne]
    exact ⟨_, _, rfl⟩
  · rw [if_neg hne]
    apply parseUintLoop_err
    · intro hcon
      have : isUint32Decimal s = true := by
        simp only [isUint32Decimal, Bool.and_eq_true, decide_eq_true_eq, List.all_eq_true]
        exact ⟨⟨hne, hcon.1⟩, hcon.2⟩
      rw [h] at this
      exact absurd this (by decide)
    · decide

theorem ParseUint_samples :
    ParseUint "0" 10 32 = (0, none) ∧ ParseUint "007" 10 32 = (7, none) ∧
      ParseUint "4294967295" 10 32 = (4294967295, none) ∧
      ParseUint "4294967296" 10 32 = (4294967295, some NumError.ErrRange) ∧
      ParseUint "" 10 32 = (0, some NumError.ErrSyntax) ∧
      ParseUint "-1" 10 32 = (0, some NumError.ErrSyntax) ∧
      ParseUint "+5" 10 32 = (0, some NumError.ErrSyntax) ∧
      ParseUint "12a" 10 32 = (0, some NumError.ErrSyntax) := by
  decide

theorem invalid_id_response :
    ErrorResponse StatusBadRequest "Invalid user ID" "0001" none =
      { Status := 400,
        Body := Payload.Error
          { Base := { Success := false, Message := "Invalid user ID", Code := "0001" },
            Errors := none } } := by
  decide

/-- C10: in the get, update and delete handlers, every route parameter `id` that
is not a base-10 unsigned integer representable in 32 bits is answered with
status 400, message `Invalid user ID` and code `0001`, with no repository call
and the store left as it was; in the update handler this holds whatever the
body is.  Every `id` that is such an integer is parsed to exactly the number it
denotes, and that number is what the Service looks up: the next repository call
is `GetByID` with it (in the update handler once the body has passed
validation). -/
theorem route_id_checked {σ : Type} (r : UserRepository σ) (v : Validate) (c : Ctx) (s : σ)
    (log : List Call) :
    (isUint32Decimal (c.Params "id") = false →
      (NewUserHandler (NewUserService (traced r)) v).GetUser c (s, log) =
        ({ Status := 400,
           Body := Payload.Error
            { Base := { Success := false, Message := "Invalid user ID", Code := "0001" },
              Errors := none } }, (s, log)) ∧
      (NewUserHandler (NewUserService (traced r)) v).UpdateUser c (s, log) =
        ({ Status := 400,
           Body := Payload.Error
            { Base := { Success := false, Message := "Invalid user ID", Code := "0001" },
              Errors := none } }, (s, log)) ∧
      (NewUserHandler (NewUserService (traced r)) v).DeleteUser c (s, log) =
        ({ Status := 400,
           Body := Payload.Error
            { Base := { Success := false, Message := "Invalid user ID", Code := "0001" },
              Errors := none } }, (s, log))) ∧
    (isUint32Decimal (c.Params "id") = true →
      ParseUint (c.Params "id") 10 32 = (decimalValue (c.Params "id").toList, none) ∧
      ((NewUserHandler (NewUserService (traced r)) v).GetUser c (s, log)).2 =
        ((r.GetByID (decimalValue (c.Params "id").toList) s).2,
          log ++ [Call.GetByID (decimalValue (c.Params "id").toList)]) ∧
      (∃ rest, ((NewUserHandler (NewUserService (traced r)) v).DeleteUser c (s, log)).2.2 =
        log ++ Call.GetByID (decimalValue (c.Params "id").toList) :: rest) ∧
      (∀ body, c.Body = some body →
        v.StructUpdate { Name := body.name, Email := body.email, Password := body.password } = [] →
        ∃ rest, ((NewUserHandler (NewUserService (traced r)) v).UpdateUser c (s, log)).2.2 =
          log ++ Call.GetByID (decimalValue (c.Params "id").toList) :: rest)) := by
  constructor
  · intro hbad
    obtain ⟨value, e, hp⟩ := ParseUint_of_invalid _ hbad
    rw [← invalid_id_response]
    refine ⟨?_, ?_, ?_⟩
    · unfold UserHandler.GetUser
      simp only [hp]
    · unfold UserHandler.UpdateUser
      simp only [hp]
    · unfold UserHandler.DeleteUser
      simp only [hp]
  · intro hgood
    have hp := ParseUint_of_valid _ hgood
    refine ⟨hp, ?_, ?_, ?_⟩
    · rw [GetUser_handler_state _ c (s, log) _ hp]
      rfl
    · rw [DeleteUser_handler_state _ c (s, log) _ hp]
      exact traced_DeleteUser_log r _ s log
    · intro body hb hv
      rw [UpdateUser_handler_state _ c (s, log) _ body hp hb hv]
      have hid : (updateEntity (decimalValue (c.Params "id").toList) body).ID =
          decimalValue (c.Params "id").toList := by rw [updateEntity_eq]
      have := traced_UpdateUser_log r (updateEntity (decimalValue (c.Params "id").toList) body)
        s log
      rw [hid] at this
      exact this

/-- Witness for C10 on the in-memory store holding `alice`: the identifier
`4294967296` is rejected by the get handler before any repository call, and
the identifier `0` is looked up as the number 0. -/
theorem route_id_checked_witness :
    (NewUserHandler (NewUserService (traced memRepo)) sampleValidate).GetUser
        (sampleCtx "4294967296" none) ([alice], []) =
      ({ Status := 400,
         Body := Payload.Error
          { Base := { Success := false, Message := "Invalid user ID", Code := "0001" },
            Errors := none } }, ([alice], [])) ∧
    ((NewUserHandler (NewUserService (traced memRepo)) sampleValidate).GetUser
        (sampleCtx "0" none) ([alice], [])).2 =
      ((memRepo.GetByID (decimalValue (String.toList "0")) [alice]).2,
        [] ++ [Call.GetByID (decimalValue (String.toList "0"))]) :=
  ⟨((route_id_checked memRepo sampleValidate (sampleCtx "4294967296" none) [alice] []).1
      (by decide)).1,
    ((route_id_checked memRepo sampleValidate (sampleCtx "0" none) [alice] []).2
      (by decide)).2.1⟩

/-! ## Theorems: email uniqueness on update -/

theorem traced_UpdateUser_log_cases {σ : Type} (r : UserRepository σ) (user : User) (s : σ)
    (log : List Call) :
    (UserService.UpdateUser (NewUserService (traced r)) user (s, log)).2.2 =
        log ++ [Call.GetByID user.ID] ∨
      (UserService.UpdateUser (NewUserService (traced r)) user (s, log)).2.2 =
        log ++ [Call.GetByID user.ID, Call.Update user] := by
  unfold UserService.UpdateUser
  simp only [NewUserService, traced]
  split
  · exact Or.inl rfl
  · split
    · exact Or.inl rfl
    · exact Or.inr (by simp)

/-- C11: `UpdateUser` does not revalidate email uniqueness.  For every repository
and user it makes no `GetByEmail` call, and whenever `GetByID` returns an
existing record without error it makes exactly the calls `GetByID` and `Update`
with the given user and returns exactly what `Update` returns, whatever the
store holds.  On the in-memory store, creating Al, creating Bob and then
updating Bob with the email of Al all succeed, and the store, which had unique
emails after the two creations, then holds two records with the same email. -/
theorem UpdateUser_no_email_check {σ : Type} (r : UserRepository σ) (user : User) (s : σ)
    (log : List Call) :
    (∀ email, Call.GetByEmail email ∈
        (UserService.UpdateUser (NewUserService (traced r)) user (s, log)).2.2 →
      Call.GetByEmail email ∈ log) ∧
    (∀ existing, (r.GetByID user.ID s).1 = (some existing, none) →
      UserService.UpdateUser (NewUserService (traced r)) user (s, log) =
        ((r.Update user (r.GetByID user.ID s).2).1,
          ((r.Update user (r.GetByID user.ID s).2).2,
            log ++ [Call.GetByID user.ID, Call.Update user]))) ∧
    ((UserService.CreateUser (NewUserService memRepo) newAl []).1.2 = none ∧
      (UserService.CreateUser (NewUserService memRepo) newBob
        (UserService.CreateUser (NewUserService memRepo) newAl []).2).1.2 = none ∧
      emailsUnique (UserService.CreateUser (NewUserService memRepo) newBob
        (UserService.CreateUser (NewUserService memRepo) newAl []).2).2 ∧
      (UserService.UpdateUser (NewUserService memRepo) { newBob with ID := 2, Email := "a@b.com" }
        (UserService.CreateUser (NewUserService memRepo) newBob
          (UserService.CreateUser (NewUserService memRepo) newAl []).2).2).1.2 = none ∧
      ¬ emailsUnique
        (UserService.UpdateUser (NewUserService memRepo)
          { newBob with ID := 2, Email := "a@b.com" }
          (UserService.CreateUser (NewUserService memRepo) newBob
            (UserService.CreateUser (NewUserService memRepo) newAl []).2).2).2) := by
  refine ⟨?_, ?_, ?_⟩
  · intro email hmem
    rcases traced_UpdateUser_log_cases r user s log with h | h
    · rw [h] at hmem
      simpa using hmem
    · rw [h] at hmem
      simpa using hmem
  · intro existing h
    simp [UserService.UpdateUser, NewUserService, traced, h]
  · unfold emailsUnique
    decide

/-- Witness for C11 on the in-memory store holding Al and Bob: the update of Bob
with the email of Al is exactly the store's `Update`, after the single lookup
by identifier. -/
theorem UpdateUser_no_email_check_witness :
    UserService.UpdateUser (NewUserService (traced memRepo))
        { newBob with ID := 2, Email := "a@b.com" } ([alice, { newBob with ID := 2 }], []) =
      ((memRepo.Update { newBob with ID := 2, Email := "a@b.com" }
          [alice, { newBob with ID := 2 }]).1,
        ((memRepo.Update { newBob with ID := 2, Email := "a@b.com" }
            [alice, { newBob with ID := 2 }]).2,
          [Call.GetByID 2, Call.Update { newBob with ID := 2, Email := "a@b.com" }])) :=
  (UpdateUser_no_email_check memRepo { newBob with ID := 2, Email := "a@b.com" }
    [alice, { newBob with ID := 2 }] []).2.1 { newBob with ID := 2 } (by decide)

end GoTemfy
